import Mathlib

/-!
# Verification of the `sopuy/utils` credential / password-lifecycle subsystem

Shallow embedding of `src/python/password_manager.py` and
`src/python/ldap_manager.py` into Lean 4, together with theorems settling the
specification claims about them.

Conventions of the embedding:
* Python `str` values are Lean `String`s; character-level work is done on
  `List Char` (Python strings are sequences of code points).
* The Python `str` classification methods (`islower`, `isupper`, `isdigit`,
  `isalpha`, `isalnum`, `lower`) are modelled on the ASCII range, which is the
  range passwords and directory attributes use in this code base.
* Machine integers are `Nat`/`Int`; Python's `//`-style floor semantics
  (`timedelta.days`) are `Int.fdiv`.
* The entropy value `round(len * math.log2(cs), 2)` is represented exactly,
  scaled by 100, as a natural number (see `entropy100`); the idealisation is
  exact real arithmetic rather than IEEE doubles.
* LDAP network effects are modelled by a `World` oracle supplying the outcome
  of each protocol primitive; a Python exception escaping an operation is an
  `Except.error`, and each operation also returns the list of protocol events
  it performed, in order.
-/

namespace Utils

/-! ## ASCII model of Python's character classification -/

/-- Python `c.islower()` on the ASCII range. -/
def pyIsLower (c : Char) : Bool := 'a' ≤ c && c ≤ 'z'

/-- Python `c.isupper()` on the ASCII range. -/
def pyIsUpper (c : Char) : Bool := 'A' ≤ c && c ≤ 'Z'

/-- Python `c.isdigit()` on the ASCII range. -/
def pyIsDigit (c : Char) : Bool := '0' ≤ c && c ≤ '9'

/-- Python `c.isalpha()` on the ASCII range. -/
def pyIsAlpha (c : Char) : Bool := pyIsLower c || pyIsUpper c

/-- Python `c.isalnum()` on the ASCII range. -/
def pyIsAlnum (c : Char) : Bool := pyIsAlpha c || pyIsDigit c

/-- Python `c.lower()` on the ASCII range. -/
def pyToLower (c : Char) : Char :=
  if pyIsUpper c then Char.ofNat (c.toNat + 32) else c

/-- Python `s.isalpha()`: `s` is nonempty and all characters are alphabetic. -/
def pyStrIsAlpha (s : List Char) : Bool := !s.isEmpty && s.all pyIsAlpha

/-- Python `s.isdigit()`: `s` is nonempty and all characters are digits. -/
def pyStrIsDigit (s : List Char) : Bool := !s.isEmpty && s.all pyIsDigit

/-! ## `password_manager.py`: the six complexity rules -/

/-- Python `password_length_valid(password, min_len=12, max_len=32)`. -/
def password_length_valid (password : String) (min_len max_len : Nat) :
    Bool × String :=
  if password = "" then (false, "Password cannot be empty.")
  else if password.data.length < min_len then
    (false, s!"Password is too short, must be at least {min_len} characters.")
  else if password.data.length > max_len then
    (false, s!"Password is too long, must be at most {max_len} characters.")
  else (true, "Password length is valid.")

/-- Python `password_has_min_types(password, min_types=3)`. -/
def password_has_min_types (password : String) (min_types : Nat) :
    Bool × String :=
  if password = "" then (false, "Password cannot be empty.")
  else
    let p := password.data
    let checks : List Bool :=
      [p.any pyIsLower, p.any pyIsUpper, p.any pyIsDigit,
       p.any (fun c => !pyIsAlnum c)]
    let types_found := (checks.map (fun b => if b then 1 else 0)).sum
    if types_found ≥ min_types then
      (true, "Password contains sufficient character variety.")
    else
      (false,
       s!"Password must contain at least {min_types} types of characters, found {types_found}.")

/-- The windows `pw[i : i + length]` for `i in range(len(pw) - length + 1)`.
Only used when `length ≤ pw.length` (the callers guard this). -/
def windowsOf (length : Nat) (pw : List Char) : List (List Char) :=
  (List.range (pw.length - length + 1)).map (fun i => (pw.drop i).take length)

/-- Python `all(ord(substr[j+1]) - ord(substr[j]) == 1 for j in range(length-1))`:
each character's code point is one above its predecessor's. -/
def ascStep : List Char → Bool
  | [] => true
  | [_] => true
  | a :: b :: rest => (b.toNat == a.toNat + 1) && ascStep (b :: rest)

/-- Python `all(ord(substr[j]) - ord(substr[j+1]) == 1 for j in range(length-1))`:
each character's code point is one below its predecessor's. -/
def descStep : List Char → Bool
  | [] => true
  | [_] => true
  | a :: b :: rest => (a.toNat == b.toNat + 1) && descStep (b :: rest)

/-- The per-window test of `contains_sequential_chars`: the window is purely
alphabetic or purely numeric, and ascending or descending by one step. -/
def isSeqWindow (w : List Char) : Bool :=
  (pyStrIsAlpha w || pyStrIsDigit w) && (ascStep w || descStep w)

/-- Python `contains_sequential_chars(password, length=3)`. -/
def contains_sequential_chars (password : String) (length : Nat) :
    Bool × String :=
  if password.data.length < length then
    (false, "Password too short to check for sequential characters.")
  else
    match (windowsOf length (password.data.map pyToLower)).find? isSeqWindow with
    | some w =>
        (false, "Sequential character pattern detected: " ++ String.mk w)
    | none => (true, "No sequential character pattern detected.")

/-- The constant `keyboard_rows = ["qwertyuiop", "asdfghjkl", "zxcvbnm"]`. -/
def keyboard_rows : List (List Char) :=
  ["qwertyuiop".data, "asdfghjkl".data, "zxcvbnm".data]

/-- Python's `s in row` on strings: `s` is a contiguous substring of `row`. -/
def isSubstringOf (s : List Char) : List Char → Bool
  | [] => s.isEmpty
  | c :: rest => s.isPrefixOf (c :: rest) || isSubstringOf s rest

/-- The per-window test of `contains_sequential_keyboard`: the window or its
reverse is a contiguous substring of some keyboard row. -/
def isKeyboardWindow (w : List Char) : Bool :=
  keyboard_rows.any (fun row => isSubstringOf w row || isSubstringOf w.reverse row)

/-- Python `contains_sequential_keyboard(password, length=3)`. -/
def contains_sequential_keyboard (password : String) (length : Nat) :
    Bool × String :=
  if password.data.length < length then
    (false, "Password too short to check for keyboard sequences.")
  else
    match (windowsOf length (password.data.map pyToLower)).find? isKeyboardWindow with
    | some w => (false, "Keyboard pattern detected: " ++ String.mk w)
    | none => (true, "No keyboard pattern detected.")

/-- The scanning loop of `contains_repeated_chars`: `prev` is the previous
character and `count` its current run length; returns the first character
(with its run count) whose run exceeds `max_repeats`. -/
def repeatedScan (max_repeats : Nat) : Char → Nat → List Char →
    Option (Char × Nat)
  | _, _, [] => none
  | prev, count, c :: rest =>
    if c = prev then
      if count + 1 > max_repeats then some (c, count + 1)
      else repeatedScan max_repeats c (count + 1) rest
    else repeatedScan max_repeats c 1 rest

/-- Python `contains_repeated_chars(password, max_repeats=2)`. -/
def contains_repeated_chars (password : String) (max_repeats : Nat) :
    Bool × String :=
  match password.data with
  | [] => (false, "Password cannot be empty.")
  | c :: rest =>
    match repeatedScan max_repeats c 1 rest with
    | some p =>
        (false,
         s!"Password contains more than {max_repeats} repeated characters: " ++
           "'" ++ String.mk (List.replicate p.2 p.1) ++ "'")
    | none => (true, "No excessive repeated characters detected.")

/-! ## The entropy rule

Python computes `entropy = round(len(password) * math.log2(charset_size), 2)`
and compares it with the threshold.  We represent the rounded value exactly,
scaled by 100: `entropy100 len cs` is the integer `k` such that
`k = round_half_even(100 * len * log2 cs)`.  Because
`2 * k - 1 ≤ 200 * len * log2 cs < 2 * k + 1` is equivalent to
`2 ^ (2 * k - 1) ≤ cs ^ (200 * len) < 2 ^ (2 * k + 1)`, the value is
`(Nat.log 2 (cs ^ (200 * len)) + 1) / 2`.  (For the charset sizes reachable
from the four character classes the quantity `100 * len * log2 cs` is never a
half-integer: the only power of two among them is 32, for which it is an
integer, so half-even rounding and nearest rounding agree.) -/

/-- Flags of the `charsets` dict passed to `calculate_entropy`. -/
structure Charsets where
  lower : Bool
  upper : Bool
  digit : Bool
  special : Bool
deriving DecidableEq, Fintype

/-- The charset size: 26/26/10/32 per class present. -/
def charsetSize (cs : Charsets) : Nat :=
  (if cs.lower then 26 else 0) + (if cs.upper then 26 else 0) +
    (if cs.digit then 10 else 0) + (if cs.special then 32 else 0)

/-- Python `round(len * log2 cs, 2)`, scaled by 100, as a natural number. -/
def entropy100 (len cs : Nat) : Nat :=
  (Nat.log 2 (cs ^ (200 * len)) + 1) / 2

/-- Render `e / 100` the way Python's `repr` renders the corresponding float:
no trailing zero in the fractional part, but at least one fractional digit. -/
def formatEntropy (e : Nat) : String :=
  let ip := e / 100
  let fp := e % 100
  if fp = 0 then s!"{ip}.0"
  else if fp % 10 = 0 then s!"{ip}." ++ toString (fp / 10)
  else s!"{ip}." ++ (if fp < 10 then "0" ++ toString fp else toString fp)

/-- Python `calculate_entropy(password, charsets, threshold=60.0)`; the threshold is
scaled by 100 like the entropy value. -/
def calculate_entropy (password : String) (charsets : Charsets)
    (threshold100 : Nat) : Bool × String :=
  if password = "" then (false, "Password cannot be empty.")
  else
    let cs := charsetSize charsets
    if cs = 0 then (false, "No valid character set detected.")
    else
      let e := entropy100 password.data.length cs
      if e ≥ threshold100 then
        (true, "Password entropy is " ++ formatEntropy e ++
          ", which meets the requirement.")
      else
        (false, "Password entropy is " ++ formatEntropy e ++
          ", which is below the threshold of " ++ formatEntropy threshold100 ++ ".")

/-- The `charsets` dict built inside `check_password_complexity_with_reason`. -/
def observedCharsets (password : String) : Charsets :=
  ⟨password.data.any pyIsLower, password.data.any pyIsUpper,
   password.data.any pyIsDigit, password.data.any (fun c => !pyIsAlnum c)⟩

/-- The `checks` list of `check_password_complexity_with_reason`, in source
order, each rule applied with its default parameters. -/
def complexityChecks (password : String) : List (Bool × String) :=
  [password_length_valid password 12 32,
   password_has_min_types password 3,
   contains_sequential_chars password 3,
   contains_sequential_keyboard password 3,
   contains_repeated_chars password 2,
   calculate_entropy password (observedCharsets password) 6000]

/-- Python `check_password_complexity_with_reason(password)`: return `(False, reason)`
for the first failing check, else a success verdict. -/
def check_password_complexity_with_reason (password : String) : Bool × String :=
  match (complexityChecks password).find? (fun c => !c.1) with
  | some c => (false, c.2)
  | none => (true, "Password is strong and meets all complexity requirements.")

/-! ## `ldap_manager.py`: error taxonomy, protocol oracle, datetimes -/

/-- The `ldap.LDAPError` subclasses the source handles, plus a catch-all for
any other protocol failure.  All constructors are subclasses of
`ldap.LDAPError`, so a bare `except ldap.LDAPError` catches every one. -/
inductive LDAPError where
  | invalidCredentials
  | serverDown
  | unwillingToPerform
  | insufficientAccess
  | noSuchObject
  | otherLdap (msg : String)
deriving DecidableEq

/-- The string Python would interpolate for the exception (`f"... {e}"`).
The exact text is irrelevant to every claim; it only has to be a function of
the exception. -/
def ldapErrorMsg : LDAPError → String
  | .invalidCredentials => "INVALID_CREDENTIALS"
  | .serverDown => "SERVER_DOWN"
  | .unwillingToPerform => "UNWILLING_TO_PERFORM"
  | .insufficientAccess => "INSUFFICIENT_ACCESS"
  | .noSuchObject => "NO_SUCH_OBJECT"
  | .otherLdap m => m

/-- A Python exception in flight: either an `ldap.LDAPError` or a non-LDAP
exception (`ValueError` from `strptime`/`int`, `IndexError` from `[0]`,
`AttributeError` from `.decode` on a `str`). -/
inductive PyErr where
  | ldap (e : LDAPError)
  | nonLdap (msg : String)
deriving DecidableEq

/-- Protocol events an operation performs, in order. -/
inductive Event where
  | bind
  | search
  | passwd
  | checkComplexity
  | unbind
deriving DecidableEq

/-- An attribute value as delivered by `python-ldap`: a `bytes` value (carried
here as its UTF-8 decoding) or, hypothetically, an already-decoded `str`. -/
inductive AttrVal where
  | bytes (s : String)
  | str (s : String)
deriving DecidableEq

/-- A directory entry: attribute name to list of values (a Python dict). -/
abbrev Entry := List (String × List AttrVal)

/-- A search result: list of `(dn, entry)` pairs. -/
abbrev SearchResult := List (String × Entry)

/-- Python `v[0].decode("utf-8") if isinstance(v[0], bytes) else v[0]`. -/
def attrToStr : AttrVal → String
  | .bytes s => s
  | .str s => s

/-- Python `v.decode("utf-8")`: succeeds on `bytes`, raises `AttributeError` on
`str`. -/
def pyDecode : AttrVal → Except PyErr String
  | .bytes s => Except.ok s
  | .str _ => Except.error (PyErr.nonLdap "AttributeError: str has no decode")

/-- Python `vs[0]`: raises `IndexError` on an empty list. -/
def pyHead (vs : List AttrVal) : Except PyErr AttrVal :=
  match vs with
  | [] => Except.error (PyErr.nonLdap "IndexError: list index out of range")
  | v :: _ => Except.ok v

/-- Python dict membership / indexing on an entry (`k in entry`,
`entry[k]`). -/
def lookupAttr (entry : Entry) (k : String) : Option (List AttrVal) :=
  (entry.find? (fun kv => kv.1 = k)).map (fun kv => kv.2)

/-- Python `s.rstrip("Z")`: drop every trailing `'Z'`. -/
def pyRstripZ (s : String) : String :=
  String.mk (((s.data.reverse).dropWhile (fun c => c = 'Z')).reverse)

/-- Python `int(s)`: an optional sign followed by at least one ASCII digit
(whitespace and underscore liberality of Python's `int` is not needed by this
code base). -/
def pyInt (s : String) : Option Int :=
  match s.data with
  | '-' :: ds =>
      if ds ≠ [] ∧ ds.all pyIsDigit then
        some (-(Int.ofNat (ds.foldl (fun a c => a * 10 + (c.toNat - 48)) 0)))
      else none
  | '+' :: ds =>
      if ds ≠ [] ∧ ds.all pyIsDigit then
        some (Int.ofNat (ds.foldl (fun a c => a * 10 + (c.toNat - 48)) 0))
      else none
  | ds =>
      if ds ≠ [] ∧ ds.all pyIsDigit then
        some (Int.ofNat (ds.foldl (fun a c => a * 10 + (c.toNat - 48)) 0))
      else none

/-! ### Proleptic-Gregorian date arithmetic (CPython's `datetime` calendar) -/

/-- Leap year in the proleptic Gregorian calendar. -/
def isLeapYear (y : Nat) : Bool :=
  (y % 4 = 0 && y % 100 ≠ 0) || y % 400 = 0

/-- Days in a month (`m` is 1-based). -/
def daysInMonth (y m : Nat) : Nat :=
  if m = 2 then (if isLeapYear y then 29 else 28)
  else if m = 4 || m = 6 || m = 9 || m = 11 then 30
  else 31

/-- Days from 1970-01-01 to `y-m-d` in the proleptic Gregorian calendar
(Howard Hinnant's `days_from_civil`). -/
def daysFromCivil (y m d : Int) : Int :=
  let y := if m ≤ 2 then y - 1 else y
  let era := Int.fdiv y 400
  let yoe := y - era * 400
  let mp := if m > 2 then m - 3 else m + 9
  let doy := Int.fdiv (153 * mp + 2) 5 + d - 1
  let doe := yoe * 365 + Int.fdiv yoe 4 - Int.fdiv yoe 100 + doy
  era * 146097 + doe - 719468

/-- Inverse of `daysFromCivil` (Hinnant's `civil_from_days`). -/
def civilFromDays (z : Int) : Int × Int × Int :=
  let z := z + 719468
  let era := Int.fdiv z 146097
  let doe := z - era * 146097
  let yoe :=
    Int.fdiv (doe - Int.fdiv doe 1460 + Int.fdiv doe 36524 - Int.fdiv doe 146096) 365
  let y := yoe + era * 400
  let doy := doe - (365 * yoe + Int.fdiv yoe 4 - Int.fdiv yoe 100)
  let mp := Int.fdiv (5 * doy + 2) 153
  let d := doy - Int.fdiv (153 * mp + 2) 5 + 1
  let m := if mp < 10 then mp + 3 else mp - 9
  (if m ≤ 2 then y + 1 else y, m, d)

/-- Python `datetime.strptime(s, "%Y%m%d%H%M%S")`, returning seconds since the Unix
epoch of the parsed naive timestamp (UTC when interpreted by the caller).
`none` models the `ValueError` CPython raises for a malformed or
out-of-range string.  The model accepts exactly the fixed-width
`YYYYMMDDHHMMSS` form the directory's generalized-time attributes use;
CPython would additionally accept narrower month/day/hour fields, which never
occur in that format. -/
def strptimeYmdHMS (s : String) : Option Int :=
  let ds := s.data
  if ds.length = 14 ∧ ds.all pyIsDigit then
    let num := fun (l : List Char) => l.foldl (fun a c => a * 10 + (c.toNat - 48)) 0
    let y := num (ds.take 4)
    let mo := num ((ds.drop 4).take 2)
    let d := num ((ds.drop 6).take 2)
    let h := num ((ds.drop 8).take 2)
    let mi := num ((ds.drop 10).take 2)
    let se := num ((ds.drop 12).take 2)
    if 1 ≤ y ∧ 9999 ≥ y ∧ 1 ≤ mo ∧ mo ≤ 12 ∧ 1 ≤ d ∧ d ≤ daysInMonth y mo ∧
        h ≤ 23 ∧ mi ≤ 59 ∧ se ≤ 59 then
      some (daysFromCivil (Int.ofNat y) (Int.ofNat mo) (Int.ofNat d) * 86400 +
        (Int.ofNat h) * 3600 + (Int.ofNat mi) * 60 + Int.ofNat se)
    else none
  else none

/-- Left-pad the decimal rendering of `0 ≤ n` with zeros to width 2. -/
def pad2 (n : Int) : String :=
  if n < 10 then "0" ++ toString n else toString n

/-- Left-pad the decimal rendering of `0 ≤ n` with zeros to width 4. -/
def pad4 (n : Int) : String :=
  if n < 10 then "000" ++ toString n
  else if n < 100 then "00" ++ toString n
  else if n < 1000 then "0" ++ toString n
  else toString n

/-- Python `datetime.isoformat()` of a UTC-aware datetime given as epoch seconds,
e.g. `"2023-04-01T00:00:00+00:00"`. -/
def isoFormat (t : Int) : String :=
  let days := Int.fdiv t 86400
  let secs := t - days * 86400
  let c := civilFromDays days
  pad4 c.1 ++ "-" ++ pad2 c.2.1 ++ "-" ++ pad2 c.2.2 ++ "T" ++
    pad2 (Int.fdiv secs 3600) ++ ":" ++ pad2 (Int.fdiv (secs % 3600) 60) ++
    ":" ++ pad2 (secs % 60) ++ "+00:00"

/-! ## The `OpenLDAPClient` operations

The directory server and the clock are modelled by a `World` oracle that
supplies the outcome of every protocol primitive.  `ldap.initialize` performs
no network I/O (connections are lazy in `python-ldap`), so `_get_connection`
always yields a connection object; every subsequent primitive may fail with an
`LDAPError`.  Each operation returns the value the Python method returns (or
the exception it raises) together with the ordered list of protocol events it
performed. -/

/-- Outcome oracle for one directory interaction and the wall clock.
Fields, in order: result of `simple_bind_s dn password`; result of
`search_s base SCOPE_SUBTREE filter attrs`; result of
`search_s dn SCOPE_BASE attrlist` (the policy lookup); result of
`passwd_s dn old new`; result of `unbind_s`; `datetime.now(timezone.utc)`
in epoch seconds. -/
structure World where
  bindResult : String → String → Option LDAPError
  searchSubtree : String → String → List String → Except LDAPError SearchResult
  searchBase : String → List String → Except LDAPError SearchResult
  passwdResult : String → String → String → Option LDAPError
  unbindResult : Option LDAPError
  now : Int

/-- The connection-owning state of `OpenLDAPClient` (`ldap_uri`, `base_dn`;
the CA path only affects global TLS options, which no claim concerns). -/
structure Client where
  ldap_uri : String
  base_dn : String

/-- Python `OpenLDAPClient._get_user_dn`. -/
def get_user_dn (c : Client) (username : String) : String :=
  if username = "admin" then "cn=admin," ++ c.base_dn
  else if username = "xops" then "uid=" ++ username ++ ",ou=service," ++ c.base_dn
  else "uid=" ++ username ++ ",ou=people," ++ c.base_dn

/-- The `finally: conn.unbind_s()` block: it always runs and appends one
unbind event; if the unbind itself raises, its exception replaces whatever
outcome (return value or exception) was in flight. -/
def withUnbind (w : World) : Except PyErr α × List Event →
    Except PyErr α × List Event
  | (body, tr) =>
    match w.unbindResult with
    | none => (body, tr ++ [Event.unbind])
    | some e => (Except.error (PyErr.ldap e), tr ++ [Event.unbind])

/-- Route an in-flight exception through a bank of `except ldap.*` clauses:
every `LDAPError` is converted to a return value, anything else keeps
propagating. -/
def handleLdap (f : LDAPError → α) : Except PyErr α → Except PyErr α
  | Except.ok r => Except.ok r
  | Except.error (PyErr.ldap e) => Except.ok (f e)
  | Except.error (PyErr.nonLdap m) => Except.error (PyErr.nonLdap m)

/-- The `try` body of `authenticate` with its `except` clauses already fused
(each clause returns; the generic `except ldap.LDAPError` is last). -/
def authBody (w : World) (user_dn username password : String) :
    Except PyErr (Bool × String) × List Event :=
  match w.bindResult user_dn password with
  | none =>
      (Except.ok (true, "Authentication successful for user: " ++ username),
       [Event.bind])
  | some LDAPError.invalidCredentials =>
      (Except.ok (false,
        "Authentication failed: Invalid credentials for user " ++ username ++ "."),
       [Event.bind])
  | some LDAPError.serverDown =>
      (Except.ok (false,
        "LDAP server is down or unreachable: " ++ ldapErrorMsg LDAPError.serverDown),
       [Event.bind])
  | some e =>
      (Except.ok (false,
        "An LDAP error occurred during authentication for " ++ username ++ ": " ++
          ldapErrorMsg e),
       [Event.bind])

/-- Python `OpenLDAPClient.authenticate(username, password)`. -/
def authenticate (c : Client) (w : World) (username password : String) :
    Except PyErr (Bool × String) × List Event :=
  let user_dn := get_user_dn c username
  withUnbind w (authBody w user_dn username password)

/-- The `try` body of `change_password`, before exception handling: bind with
the old password, evaluate the complexity engine, then run the password-modify
extended operation. -/
def changeBody (w : World) (user_dn old_password new_password : String) :
    Except PyErr (Bool × String) × List Event :=
  match w.bindResult user_dn old_password with
  | some e => (Except.error (PyErr.ldap e), [Event.bind])
  | none =>
    let check := check_password_complexity_with_reason new_password
    if check.1 = false then
      (Except.ok (false, check.2), [Event.bind, Event.checkComplexity])
    else
      match w.passwdResult user_dn old_password new_password with
      | some e =>
          (Except.error (PyErr.ldap e),
           [Event.bind, Event.checkComplexity, Event.passwd])
      | none =>
          (Except.ok (true, "Password changed successfully."),
           [Event.bind, Event.checkComplexity, Event.passwd])

/-- The `except` clauses of `change_password` (the username is only used by
the source inside log records, not in the returned messages). -/
def changeHandlers (_username : String) : LDAPError → Bool × String
  | LDAPError.invalidCredentials => (false, "Invalid old password.")
  | LDAPError.unwillingToPerform =>
      (false, "New password does not meet the complexity/history policy.")
  | LDAPError.serverDown => (false, "LDAP server is unavailable.")
  | e =>
      (false, "An LDAP error occurred: " ++ ldapErrorMsg e)

/-- Python `OpenLDAPClient.change_password(username, old_password, new_password)`.
The `username` parameter of `changeHandlers` is only used by the source for
logging; it is threaded for faithfulness of the message shape. -/
def change_password (c : Client) (w : World)
    (username old_password new_password : String) :
    Except PyErr (Bool × String) × List Event :=
  let user_dn := get_user_dn c username
  let bt := changeBody w user_dn old_password new_password
  withUnbind w (handleLdap (changeHandlers username) bt.1, bt.2)

/-- The result dictionary of `get_user_info`: either `{"message": ...}` or the
decoded per-attribute mapping. -/
inductive InfoResult where
  | message (msg : String)
  | info (fields : List (String × String))
deriving DecidableEq

/-- The attribute list requested by `get_user_info`. -/
def infoAttrs : List String :=
  ["uid", "cn", "mail", "displayName", "sn", "givenName", "ou"]

/-- The dict comprehension
`{k: v[0].decode("utf-8") if isinstance(v[0], bytes) else v[0] for k, v in user_entry.items()}`;
an empty value list raises `IndexError`. -/
def buildUserInfo : Entry → Except PyErr (List (String × String))
  | [] => Except.ok []
  | (k, vs) :: rest =>
    match vs with
    | [] => Except.error (PyErr.nonLdap "IndexError: list index out of range")
    | v :: _ =>
      match buildUserInfo rest with
      | Except.ok tail => Except.ok ((k, attrToStr v) :: tail)
      | Except.error e => Except.error e

/-- The `try` body of `get_user_info`. -/
def infoBody (c : Client) (w : World)
    (username_to_query user_dn bind_password : String) :
    Except PyErr InfoResult × List Event :=
  match w.bindResult user_dn bind_password with
  | some e => (Except.error (PyErr.ldap e), [Event.bind])
  | none =>
    match w.searchSubtree c.base_dn ("(uid=" ++ username_to_query ++ ")") infoAttrs with
    | Except.error e => (Except.error (PyErr.ldap e), [Event.bind, Event.search])
    | Except.ok [] =>
        (Except.ok (InfoResult.message
          ("User '" ++ username_to_query ++ "' not found.")),
         [Event.bind, Event.search])
    | Except.ok (r :: _) =>
      match buildUserInfo r.2 with
      | Except.ok fields =>
          (Except.ok (InfoResult.info fields), [Event.bind, Event.search])
      | Except.error e => (Except.error e, [Event.bind, Event.search])

/-- The `except` clauses of `get_user_info`. -/
def infoHandlers (bind_user username_to_query : String) : LDAPError → InfoResult
  | LDAPError.invalidCredentials =>
      InfoResult.message ("Invalid credentials for user '" ++ bind_user ++ "'.")
  | e =>
      InfoResult.message ("LDAP error occurred while querying '" ++
        username_to_query ++ "': " ++ ldapErrorMsg e)

/-- Python `OpenLDAPClient.get_user_info(username_to_query, admin_user, admin_password)`.
`bind_user = admin_user or username_to_query` is Python's `or` on strings
(empty string is falsy); `bind_password = admin_password or ""` is the
identity on strings. -/
def get_user_info (c : Client) (w : World)
    (username_to_query admin_user admin_password : String) :
    Except PyErr InfoResult × List Event :=
  let bind_user := if admin_user = "" then username_to_query else admin_user
  let bind_password := admin_password
  let user_dn := get_user_dn c bind_user
  let bt := infoBody c w username_to_query user_dn bind_password
  withUnbind w (handleLdap (infoHandlers bind_user username_to_query) bt.1, bt.2)

/-- The `days_left` value of the expiry dictionary: `float("inf")` or an
integer number of days. -/
inductive DaysLeft where
  | int (n : Int)
  | inf
deriving DecidableEq

/-- The dictionary returned by `get_password_expiry_info`.  An `Option` field
is `none` when the key is absent; `expiry_date = some none` is the key bound
to Python's `None`. -/
structure ExpiryDict where
  expiry_date : Option (Option Int)
  days_left : Option DaysLeft
  last_changed : Option Int
  message : String
deriving DecidableEq

/-- A `{"message": ...}`-only expiry dictionary. -/
def mkMessage (msg : String) : ExpiryDict := ⟨none, none, none, msg⟩

/-- The attribute list requested on the user entry by
`get_password_expiry_info`. -/
def expiryAttrs : List String := ["pwdChangedTime", "pwdPolicySubentry"]

/-- The `try` body of `get_password_expiry_info`. -/
def expiryBody (c : Client) (w : World)
    (username_to_query admin_dn admin_password : String) :
    Except PyErr ExpiryDict × List Event :=
  match w.bindResult admin_dn admin_password with
  | some e => (Except.error (PyErr.ldap e), [Event.bind])
  | none =>
    match w.searchSubtree c.base_dn ("(uid=" ++ username_to_query ++ ")") expiryAttrs with
    | Except.error e => (Except.error (PyErr.ldap e), [Event.bind, Event.search])
    | Except.ok [] =>
        (Except.ok (mkMessage ("User '" ++ username_to_query ++ "' not found.")),
         [Event.bind, Event.search])
    | Except.ok (r :: _) =>
      let user_entry := r.2
      match lookupAttr user_entry "pwdChangedTime" with
      | none =>
          (Except.ok (mkMessage
            "Could not retrieve password last changed time. ppolicy overlay may not be active."),
           [Event.bind, Event.search])
      | some ctVals =>
        match pyHead ctVals with
        | Except.error e => (Except.error e, [Event.bind, Event.search])
        | Except.ok ctVal =>
          match pyDecode ctVal with
          | Except.error e => (Except.error e, [Event.bind, Event.search])
          | Except.ok ctStr =>
            match strptimeYmdHMS (pyRstripZ ctStr) with
            | none =>
                (Except.error (PyErr.nonLdap "ValueError: strptime"),
                 [Event.bind, Event.search])
            | some pwd_changed_time =>
              match lookupAttr user_entry "pwdPolicySubentry" with
              | none =>
                  (Except.ok (mkMessage "User is not subject to any password policy."),
                   [Event.bind, Event.search])
              | some pVals =>
                match pyHead pVals with
                | Except.error e => (Except.error e, [Event.bind, Event.search])
                | Except.ok pVal =>
                  match pyDecode pVal with
                  | Except.error e => (Except.error e, [Event.bind, Event.search])
                  | Except.ok policy_dn =>
                    match w.searchBase policy_dn ["pwdMaxAge"] with
                    | Except.error e =>
                        (Except.error (PyErr.ldap e),
                         [Event.bind, Event.search, Event.search])
                    | Except.ok policy_result =>
                      let evs := [Event.bind, Event.search, Event.search]
                      -- `if not policy_result or "pwdMaxAge" not in policy_result[0][1]`
                      match policy_result with
                      | [] =>
                          (Except.ok (mkMessage
                            "Could not retrieve pwdMaxAge from the password policy."), evs)
                      | pr :: _ =>
                        match lookupAttr pr.2 "pwdMaxAge" with
                        | none =>
                            (Except.ok (mkMessage
                              "Could not retrieve pwdMaxAge from the password policy."), evs)
                        | some mVals =>
                          match pyHead mVals with
                          | Except.error e => (Except.error e, evs)
                          | Except.ok mVal =>
                            match pyInt (attrToStr mVal) with
                            | none => (Except.error (PyErr.nonLdap "ValueError: int"), evs)
                            | some pwd_max_age_seconds =>
                              if pwd_max_age_seconds = 0 then
                                (Except.ok ⟨some none, some DaysLeft.inf, none,
                                  "Password is set to never expire."⟩, evs)
                              else
                                let expiry := pwd_changed_time + pwd_max_age_seconds
                                let days_left := Int.fdiv (expiry - w.now) 86400
                                (Except.ok ⟨some (some expiry),
                                  some (DaysLeft.int days_left),
                                  some pwd_changed_time,
                                  "Password expires on " ++ isoFormat expiry ++ " UTC."⟩,
                                 evs)

/-- The `except` clauses of `get_password_expiry_info`. -/
def expiryHandlers (username_to_query admin_user : String) :
    LDAPError → ExpiryDict
  | LDAPError.insufficientAccess =>
      mkMessage ("Admin user '" ++ admin_user ++
        "' does not have sufficient rights to read password policy attributes.")
  | LDAPError.noSuchObject =>
      mkMessage ("User '" ++ username_to_query ++
        "' or required policy object not found.")
  | e =>
      mkMessage ("An LDAP error occurred: " ++ ldapErrorMsg e)

/-- Python `OpenLDAPClient.get_password_expiry_info(username_to_query, admin_user,
admin_password)`. -/
def get_password_expiry_info (c : Client) (w : World)
    (username_to_query admin_user admin_password : String) :
    Except PyErr ExpiryDict × List Event :=
  let admin_dn := get_user_dn c admin_user
  let bt := expiryBody c w username_to_query admin_dn admin_password
  withUnbind w (handleLdap (expiryHandlers username_to_query admin_user) bt.1, bt.2)

/-! ## Specification-side definitions (for refinement-style claims) -/

/-- From the spec's words: the aggregate verdict is the verdict of the first
failing rule in the fixed order, else a success verdict. -/
def firstFailingVerdict (password : String) : Bool × String :=
  match (complexityChecks password).find? (fun v => v.1 == false) with
  | some v => v
  | none => (true, "Password is strong and meets all complexity requirements.")

/-- From the spec's words: some window of length 3 of the password consists of
purely-alphabetic or purely-numeric characters and is strictly ascending or
strictly descending by one code-point step per position, case-insensitively. -/
def hasSequentialRun (password : String) : Prop :=
  ∃ i, i + 3 ≤ password.data.length ∧
    ((pyStrIsAlpha (((password.data.map pyToLower).drop i).take 3) = true ∨
      pyStrIsDigit (((password.data.map pyToLower).drop i).take 3) = true) ∧
     (ascStep (((password.data.map pyToLower).drop i).take 3) = true ∨
      descStep (((password.data.map pyToLower).drop i).take 3) = true))

/-- Number of character classes marked present. -/
def classCount (cs : Charsets) : Nat :=
  (if cs.lower then 1 else 0) + (if cs.upper then 1 else 0) +
    (if cs.digit then 1 else 0) + (if cs.special then 1 else 0)

/-- First value of each attribute of an entry, decoded; the spec-shape of the
mapping `get_user_info` builds from a nonempty search result. -/
def firstValues (entry : Entry) : List (String × String) :=
  entry.map (fun kv => (kv.1, attrToStr (kv.2.headD (AttrVal.str ""))))

/-! ## Concrete instances used by witnesses and counterexamples -/

/-- A client over the example endpoint. -/
def exClient : Client := ⟨"ldaps://ldap.example.com:636", "dc=example,dc=com"⟩

/-- A world where every primitive succeeds, searches are empty, and
`now = 0`. -/
def wBindOk : World :=
  ⟨fun _ _ => none, fun _ _ _ => Except.ok [], fun _ _ => Except.ok [],
   fun _ _ _ => none, none, 0⟩

/-- A world where every bind is rejected with `INVALID_CREDENTIALS`. -/
def wBindInvalid : World :=
  ⟨fun _ _ => some LDAPError.invalidCredentials, fun _ _ _ => Except.ok [],
   fun _ _ => Except.ok [], fun _ _ _ => none, none, 0⟩

/-- A world where everything succeeds except the final `unbind_s`, which
raises `SERVER_DOWN`. -/
def wBadTeardown : World :=
  ⟨fun _ _ => none, fun _ _ _ => Except.ok [], fun _ _ => Except.ok [],
   fun _ _ _ => none, some LDAPError.serverDown, 0⟩

/-- The spec's expiry scenario: `pwdChangedTime = "20230101000000Z"`,
policy `pwdMaxAge = 7776000`. -/
def scenarioUserEntry : Entry :=
  [("pwdChangedTime", [AttrVal.bytes "20230101000000Z"]),
   ("pwdPolicySubentry", [AttrVal.bytes "cn=default,ou=policies,dc=example,dc=com"])]

/-- The spec's expiry scenario policy entry. -/
def scenarioPolicyEntry : Entry := [("pwdMaxAge", [AttrVal.bytes "7776000"])]

/-- The spec's expiry scenario world, with
`now = 2023-04-15T00:00:00Z = 1681516800`. -/
def wScenario : World :=
  ⟨fun _ _ => none,
   fun _ _ _ => Except.ok
     [("uid=test,ou=people,dc=example,dc=com", scenarioUserEntry)],
   fun _ _ => Except.ok
     [("cn=default,ou=policies,dc=example,dc=com", scenarioPolicyEntry)],
   fun _ _ _ => none, none, 1681516800⟩

/-- A policy entry whose `pwdMaxAge` is zero. -/
def neverExpiresPolicyEntry : Entry := [("pwdMaxAge", [AttrVal.bytes "0"])]

/-- The scenario world with a never-expiring policy. -/
def wNeverExpires : World :=
  ⟨fun _ _ => none,
   fun _ _ _ => Except.ok
     [("uid=test,ou=people,dc=example,dc=com", scenarioUserEntry)],
   fun _ _ => Except.ok
     [("cn=default,ou=policies,dc=example,dc=com", neverExpiresPolicyEntry)],
   fun _ _ _ => none, none, 1681516800⟩

/-- A profile entry with a multi-valued attribute and a mixed bytes/str
attribute. -/
def infoEntryA : Entry :=
  [("uid", [AttrVal.bytes "test"]),
   ("cn", [AttrVal.bytes "Test User", AttrVal.bytes "Secondary Name"]),
   ("mail", [AttrVal.str "test@example.com", AttrVal.bytes "alt@example.com"])]

/-- A second matching profile entry (to be discarded). -/
def infoEntryB : Entry := [("uid", [AttrVal.bytes "shadow"])]

/-- A world whose subtree search returns two matching entries. -/
def wInfo : World :=
  ⟨fun _ _ => none,
   fun _ _ _ => Except.ok
     [("uid=test,ou=people,dc=example,dc=com", infoEntryA),
      ("uid=shadow,ou=people,dc=example,dc=com", infoEntryB)],
   fun _ _ => Except.ok [], fun _ _ _ => none, none, 0⟩

/-! ## Helper lemmas -/

theorem withUnbind_trace (w : World) (x : Except PyErr α × List Event) :
    (withUnbind w x).2 = x.2 ++ [Event.unbind] := by
  rcases x with ⟨b, tr⟩
  unfold withUnbind
  cases w.unbindResult <;> rfl

theorem withUnbind_fst_none (w : World) (h : w.unbindResult = none)
    (x : Except PyErr α × List Event) : (withUnbind w x).1 = x.1 := by
  rcases x with ⟨b, tr⟩
  unfold withUnbind
  rw [h]

theorem handleLdap_ne_ldap_error (f : LDAPError → α) (x : Except PyErr α)
    (e : LDAPError) : handleLdap f x ≠ Except.error (PyErr.ldap e) := by
  cases x with
  | ok r => simp [handleLdap]
  | error pe => cases pe <;> simp [handleLdap]

theorem authBody_never_raises (w : World) (dn u p : String) (pe : PyErr) :
    (authBody w dn u p).1 ≠ Except.error pe := by
  unfold authBody
  rcases w.bindResult dn p with _ | e
  · simp
  · cases e <;> simp

theorem unbind_not_in_authBody (w : World) (dn u p : String) :
    Event.unbind ∉ (authBody w dn u p).2 := by
  unfold authBody
  rcases w.bindResult dn p with _ | e
  · simp
  · cases e <;> simp

theorem unbind_not_in_changeBody (w : World) (dn o n : String) :
    Event.unbind ∉ (changeBody w dn o n).2 := by
  unfold changeBody
  rcases w.bindResult dn o with _ | e
  · by_cases hc : (check_password_complexity_with_reason n).1 = false
    · simp [hc]
    · rcases w.passwdResult dn o n with _ | e <;> simp [hc]
  · simp

theorem unbind_not_in_infoBody (c : Client) (w : World) (q dn p : String) :
    Event.unbind ∉ (infoBody c w q dn p).2 := by
  unfold infoBody
  repeat' split
  all_goals simp

theorem unbind_not_in_expiryBody (c : Client) (w : World) (q dn p : String) :
    Event.unbind ∉ (expiryBody c w q dn p).2 := by
  unfold expiryBody
  repeat' split
  all_goals try simp
  all_goals (repeat' split)
  all_goals simp

theorem count_unbind_concat {l : List Event} (h : Event.unbind ∉ l) :
    (l ++ [Event.unbind]).count Event.unbind = 1 := by
  rw [List.count_append, List.count_eq_zero.mpr h]
  rfl

theorem buildUserInfo_firstValues :
    ∀ entry : Entry, (∀ kv ∈ entry, kv.2 ≠ []) →
      buildUserInfo entry = Except.ok (firstValues entry) := by
  intro entry h
  induction entry with
  | nil => rfl
  | cons kv rest ih =>
    rcases kv with ⟨k, vs⟩
    have hne : vs ≠ [] := h (k, vs) (List.mem_cons_self _ _)
    rcases vs with _ | ⟨v, vs'⟩
    · exact absurd rfl hne
    · have hrest := ih (fun kv hkv => h kv (List.mem_cons_of_mem _ hkv))
      unfold buildUserInfo
      rw [hrest]
      rfl

theorem mem_windowsOf {len : Nat} {pw w : List Char} :
    w ∈ windowsOf len pw ↔
      ∃ i, i < pw.length - len + 1 ∧ (pw.drop i).take len = w := by
  simp [windowsOf, List.mem_map, List.mem_range]

theorem charsetSize_le_of_classCount_lt :
    ∀ cs1 cs2 : Charsets, classCount cs1 < classCount cs2 →
      charsetSize cs1 ≤ charsetSize cs2 := by decide

theorem entropy100_mono_charset (l : Nat) {c1 c2 : Nat} (h : c1 ≤ c2) :
    entropy100 l c1 ≤ entropy100 l c2 :=
  Nat.div_le_div_right
    (Nat.succ_le_succ (Nat.log_mono_right (Nat.pow_le_pow_left h _)))

theorem entropy100_zero_charset (l : Nat) : entropy100 l 0 = 0 := by
  unfold entropy100
  rcases Nat.eq_zero_or_pos l with h | h
  · subst h; simp [Nat.log_one_right]
  · have h200 : 0 < 200 * l := by omega
    rw [Nat.zero_pow h200]
    simp [Nat.log_zero_right]

/-- The value `entropy100 l cs` represents `100 * l * log2 cs` to within half a unit:
it lies in the half-open interval `[x - 1/2, x + 1/2)` around twice that
quantity, which is exactly the defining property of the rounded value
`round(l * log2 cs, 2) * 100` whenever `200 * l * log2 cs` is not an odd
integer (for the charset sizes reachable here the quantity is either an even
integer or irrational, so the representation is exact). -/
theorem entropy100_brackets (l cs : Nat) (hcs : 1 ≤ cs) :
    (2 * entropy100 l cs : ℝ) - 1 ≤ 200 * l * Real.logb 2 cs ∧
    200 * l * Real.logb 2 cs < 2 * entropy100 l cs + 1 := by
  set N := cs ^ (200 * l) with hN
  have hN1 : 1 ≤ N := Nat.one_le_pow _ _ (by omega)
  set b := Nat.log 2 N with hb
  have hlow : (2 : ℝ) ^ b ≤ (N : ℝ) := by
    exact_mod_cast Nat.cast_le.mpr (Nat.pow_log_le_self 2 (by omega))
  have hhigh : (N : ℝ) < (2 : ℝ) ^ (b + 1) := by
    exact_mod_cast Nat.cast_lt.mpr (Nat.lt_pow_succ_log_self (by norm_num) N)
  have hNpos : (0 : ℝ) < (N : ℝ) := by positivity
  have hlogN : Real.logb 2 (N : ℝ) = 200 * l * Real.logb 2 cs := by
    rw [hN]
    push_cast
    rw [Real.logb_pow]
    push_cast
    ring
  have hpow : ∀ k : Nat, Real.logb 2 ((2 : ℝ) ^ k) = (k : ℝ) := by
    intro k
    rw [Real.logb_pow, Real.logb_self_eq_one] <;> norm_num
  have hblow : (b : ℝ) ≤ 200 * l * Real.logb 2 cs := by
    rw [← hlogN]
    calc (b : ℝ) = Real.logb 2 ((2 : ℝ) ^ b) := (hpow b).symm
      _ ≤ Real.logb 2 (N : ℝ) :=
          Real.logb_le_logb_of_le (by norm_num) (by positivity) hlow
  have hbhigh : 200 * l * Real.logb 2 cs < (b : ℝ) + 1 := by
    rw [← hlogN]
    calc Real.logb 2 (N : ℝ) < Real.logb 2 ((2 : ℝ) ^ (b + 1)) :=
          Real.logb_lt_logb (by norm_num) hNpos hhigh
      _ = (b : ℝ) + 1 := by rw [hpow (b + 1)]; push_cast; ring
  set e := (b + 1) / 2 with he
  have hcases : 2 * e = b ∨ 2 * e = b + 1 := by omega
  unfold entropy100
  rw [← hN, ← hb, ← he]
  rcases hcases with hc | hc
  · have hcR : 2 * (e : ℝ) = (b : ℝ) := by exact_mod_cast congrArg (fun n : ℕ => (n : ℝ)) hc
    constructor <;> linarith
  · have hcR : 2 * (e : ℝ) = (b : ℝ) + 1 := by exact_mod_cast congrArg (fun n : ℕ => (n : ℝ)) hc
    constructor <;> linarith

theorem entropy100_mono_len (cs : Nat) {l1 l2 : Nat} (h : l1 ≤ l2) :
    entropy100 l1 cs ≤ entropy100 l2 cs := by
  rcases Nat.eq_zero_or_pos cs with hc | hc
  · subst hc; rw [entropy100_zero_charset, entropy100_zero_charset]
  · exact Nat.div_le_div_right
      (Nat.succ_le_succ (Nat.log_mono_right
        (Nat.pow_le_pow_right hc (by omega))))

/-! ## Claims -/

/-- Claim C3: For every candidate password, the aggregate complexity verdict
equals the verdict of the first failing rule when the six rules are evaluated
in the fixed order (length bounds, character-class diversity, sequential run,
keyboard adjacency, repeated-character run, entropy), and equals a success
verdict when no rule fails; the evaluation is deterministic — the same input
always yields the same first-failing rule. -/
theorem C3_aggregate_is_first_failing (password : String) :
    check_password_complexity_with_reason password = firstFailingVerdict password ∧
    ∀ q : String, password = q →
      check_password_complexity_with_reason password =
        check_password_complexity_with_reason q := by
  constructor
  · unfold check_password_complexity_with_reason firstFailingVerdict
    have hfun : (fun c : Bool × String => !c.1) =
        (fun v : Bool × String => v.1 == false) := by
      funext c; cases c.1 <;> rfl
    rw [hfun]
    cases hf : (complexityChecks password).find? (fun v => v.1 == false) with
    | none => rfl
    | some v =>
        have hv := List.find?_some hf
        rcases v with ⟨b, s⟩
        have hb : b = false := by simpa using hv
        subst hb
        rfl
  · intro q h; rw [h]

/-- Witness for C3 at the password `"short"`. -/
theorem C3_witness :
    check_password_complexity_with_reason "short" = firstFailingVerdict "short" ∧
    check_password_complexity_with_reason "short" =
      check_password_complexity_with_reason "short" :=
  ⟨(C3_aggregate_is_first_failing "short").1,
   (C3_aggregate_is_first_failing "short").2 "short" rfl⟩

/-- Counterexample to claim C7: The claim states that any password shorter than
the window length passes the sequential-run rule; the code fails `"ab"`
(length 2 < 3) with a "too short" reason. -/
theorem C7_counterexample :
    (contains_sequential_chars "ab" 3).1 = false ∧
    contains_sequential_chars "ab" 3 =
      (false, "Password too short to check for sequential characters.") :=
  ⟨rfl, rfl⟩

/-- Claim C7 as amended: The sequential-run rule fails a password if and only if
the password is shorter than the window length (with a distinct "too short"
reason), or some window of length 3 consists of purely-alphabetic or
purely-numeric characters and is strictly ascending or strictly descending by
one code-point step per position, case-insensitively; a password of at least
the window length with no such window passes the rule. -/
theorem C7_sequential_rule_iff (password : String) :
    (contains_sequential_chars password 3).1 = false ↔
      (password.data.length < 3 ∨ hasSequentialRun password) := by
  unfold contains_sequential_chars
  by_cases hlen : password.data.length < 3
  · rw [if_pos hlen]
    exact iff_of_true rfl (Or.inl hlen)
  · rw [if_neg hlen]
    have hmaplen : (password.data.map pyToLower).length = password.data.length :=
      List.length_map _ _
    cases hf : (windowsOf 3 (password.data.map pyToLower)).find? isSeqWindow with
    | some w =>
        have hp := List.find?_some hf
        have hm := List.mem_of_find?_eq_some hf
        rw [mem_windowsOf] at hm
        obtain ⟨i, hi, hwi⟩ := hm
        rw [hmaplen] at hi
        refine iff_of_true rfl (Or.inr ⟨i, by omega, ?_⟩)
        rw [hwi]
        simpa [isSeqWindow, Bool.and_eq_true, Bool.or_eq_true] using hp
    | none =>
        rw [List.find?_eq_none] at hf
        refine iff_of_false (by simp) ?_
        rintro (h | ⟨i, hi, hw⟩)
        · exact hlen h
        · refine hf (((password.data.map pyToLower).drop i).take 3) ?_ ?_
          · exact mem_windowsOf.mpr ⟨i, by omega, rfl⟩
          · simp only [isSeqWindow, Bool.and_eq_true, Bool.or_eq_true]
            exact hw

/-- Counterexample to claim C8: The claim states identity resolution rejects the
empty username with `InvalidInput`; `_get_user_dn` has no failure mode at all
and maps `""` to a (degenerate) distinguished name. -/
theorem C8_counterexample :
    get_user_dn ⟨"ldaps://ldap.example.com:636", "dc=example,dc=com"⟩ "" =
      "uid=,ou=people,dc=example,dc=com" := rfl

/-- Claim C8 as amended: Identity resolution is a deterministic pure function with
no I/O and no failure modes at all: `"admin"` maps to the administrative DN,
`"xops"` under the service OU, every other username — including the empty
one, which is not rejected — under the people OU. -/
theorem C8_resolution_total (c : Client) :
    get_user_dn c "admin" = "cn=admin," ++ c.base_dn ∧
    get_user_dn c "xops" = "uid=xops,ou=service," ++ c.base_dn ∧
    (∀ u : String, u ≠ "admin" → u ≠ "xops" →
      get_user_dn c u = "uid=" ++ u ++ ",ou=people," ++ c.base_dn) ∧
    get_user_dn c "" = "uid=,ou=people," ++ c.base_dn := by
  refine ⟨rfl, rfl, ?_, rfl⟩
  intro u h1 h2
  unfold get_user_dn
  rw [if_neg h1, if_neg h2]

/-- Witness for C8 at the username `"alice"`. -/
theorem C8_witness :
    get_user_dn ⟨"ldaps://ldap.example.com:636", "dc=example,dc=com"⟩ "alice" =
      "uid=alice,ou=people,dc=example,dc=com" :=
  (C8_resolution_total ⟨"ldaps://ldap.example.com:636", "dc=example,dc=com"⟩).2.2.1
    "alice" (by decide) (by decide)

/-- Claim C9: The entropy value computed by the entropy rule (represented
exactly, scaled by 100, by `entropy100`) is monotonically non-decreasing in
password length for a fixed set of character classes present, and
non-decreasing in the number of character classes present for a fixed
length. -/
theorem C9_entropy_monotone :
    (∀ (cs : Charsets) (l1 l2 : Nat), l1 ≤ l2 →
        entropy100 l1 (charsetSize cs) ≤ entropy100 l2 (charsetSize cs)) ∧
    (∀ (l : Nat) (cs1 cs2 : Charsets), classCount cs1 < classCount cs2 →
        entropy100 l (charsetSize cs1) ≤ entropy100 l (charsetSize cs2)) :=
  ⟨fun _cs _l1 _l2 h => entropy100_mono_len _ h,
   fun l _cs1 _cs2 h =>
     entropy100_mono_charset l (charsetSize_le_of_classCount_lt _ _ h)⟩

/-- Witness for C9: lengths 3 ≤ 5 over the lowercase-only class set, and the
one-class digit set against the two-class lower+upper set at length 7. -/
theorem C9_witness :
    (3 ≤ 5 ∧ entropy100 3 (charsetSize ⟨true, false, false, false⟩) ≤
        entropy100 5 (charsetSize ⟨true, false, false, false⟩)) ∧
    (classCount ⟨false, false, true, false⟩ < classCount ⟨true, true, false, false⟩ ∧
      entropy100 7 (charsetSize ⟨false, false, true, false⟩) ≤
        entropy100 7 (charsetSize ⟨true, true, false, false⟩)) :=
  ⟨⟨by decide, C9_entropy_monotone.1 ⟨true, false, false, false⟩ 3 5 (by decide)⟩,
   ⟨by decide, C9_entropy_monotone.2 7 ⟨false, false, true, false⟩
      ⟨true, true, false, false⟩ (by decide)⟩⟩

/-- Claim C1: For every public operation (authenticate, change_password,
get_user_info, get_password_expiry_info) and every control-flow path of that
operation (success, policy violation, or protocol error), the
session/connection opened by the operation is closed (unbound) exactly once
before the operation returns: its event trace contains exactly one unbind,
and that unbind is the final event. -/
theorem C1_session_closed_once (c : Client) (w : World)
    (u p uc oc nc qi ai api qe ae ape : String) :
    ((authenticate c w u p).2.count Event.unbind = 1 ∧
      (authenticate c w u p).2.getLast? = some Event.unbind) ∧
    ((change_password c w uc oc nc).2.count Event.unbind = 1 ∧
      (change_password c w uc oc nc).2.getLast? = some Event.unbind) ∧
    ((get_user_info c w qi ai api).2.count Event.unbind = 1 ∧
      (get_user_info c w qi ai api).2.getLast? = some Event.unbind) ∧
    ((get_password_expiry_info c w qe ae ape).2.count Event.unbind = 1 ∧
      (get_password_expiry_info c w qe ae ape).2.getLast? = some Event.unbind) := by
  have h1 : (authenticate c w u p).2 =
      (authBody w (get_user_dn c u) u p).2 ++ [Event.unbind] :=
    withUnbind_trace w _
  have h2 : (change_password c w uc oc nc).2 =
      (changeBody w (get_user_dn c uc) oc nc).2 ++ [Event.unbind] :=
    withUnbind_trace w _
  have h3 : (get_user_info c w qi ai api).2 =
      (infoBody c w qi
        (get_user_dn c (if ai = "" then qi else ai)) api).2 ++ [Event.unbind] :=
    withUnbind_trace w _
  have h4 : (get_password_expiry_info c w qe ae ape).2 =
      (expiryBody c w qe (get_user_dn c ae) ape).2 ++ [Event.unbind] :=
    withUnbind_trace w _
  rw [h1, h2, h3, h4]
  refine ⟨⟨?_, List.getLast?_concat _⟩, ⟨?_, List.getLast?_concat _⟩,
    ⟨?_, List.getLast?_concat _⟩, ⟨?_, List.getLast?_concat _⟩⟩
  · exact count_unbind_concat (unbind_not_in_authBody w _ u p)
  · exact count_unbind_concat (unbind_not_in_changeBody w _ oc nc)
  · exact count_unbind_concat (unbind_not_in_infoBody c w qi _ api)
  · exact count_unbind_concat (unbind_not_in_expiryBody c w qe _ ape)

/-- Claim C2: For every call to `change_password(username, old, new)`: if the
bind with the old password fails with invalid credentials, the call returns a
failure without evaluating the new password against the complexity engine;
and if the complexity engine rejects the new password, the call returns a
failure carrying the engine's reason without invoking the directory's
password-modify operation.  (The returned-value halves assume the final
unbind does not itself raise; the no-evaluation / no-mutation halves hold
unconditionally.) -/
theorem C2_change_password_order (c : Client) (w : World)
    (username old_password new_password : String) :
    (w.bindResult (get_user_dn c username) old_password =
        some LDAPError.invalidCredentials →
      (w.unbindResult = none →
        (change_password c w username old_password new_password).1 =
          Except.ok (false, "Invalid old password.")) ∧
      Event.checkComplexity ∉
        (change_password c w username old_password new_password).2) ∧
    (w.bindResult (get_user_dn c username) old_password = none →
      (check_password_complexity_with_reason new_password).1 = false →
      (w.unbindResult = none →
        (change_password c w username old_password new_password).1 =
          Except.ok (false,
            (check_password_complexity_with_reason new_password).2)) ∧
      Event.passwd ∉
        (change_password c w username old_password new_password).2) := by
  have htr : (change_password c w username old_password new_password).2 =
      (changeBody w (get_user_dn c username) old_password new_password).2 ++
        [Event.unbind] :=
    withUnbind_trace w _
  constructor
  · intro hb
    constructor
    · intro hu
      have hfst :
          (change_password c w username old_password new_password).1 =
            handleLdap (changeHandlers username)
              (changeBody w (get_user_dn c username) old_password
                new_password).1 :=
        withUnbind_fst_none w hu _
      rw [hfst]
      simp [changeBody, hb, handleLdap, changeHandlers]
    · rw [htr]
      simp [changeBody, hb]
  · intro hb hc
    constructor
    · intro hu
      have hfst :
          (change_password c w username old_password new_password).1 =
            handleLdap (changeHandlers username)
              (changeBody w (get_user_dn c username) old_password
                new_password).1 :=
        withUnbind_fst_none w hu _
      rw [hfst]
      simp [changeBody, hb, hc, handleLdap]
    · rw [htr]
      simp [changeBody, hb, hc]

/-- Witness for C2: a world rejecting the old-password bind (the complexity
engine is never consulted), and a world accepting it with a too-short new
password (the password-modify operation is never invoked). -/
theorem C2_witness :
    ((change_password exClient wBindInvalid "alice" "oldpw" "newpw").1 =
        Except.ok (false, "Invalid old password.") ∧
      Event.checkComplexity ∉
        (change_password exClient wBindInvalid "alice" "oldpw" "newpw").2) ∧
    ((change_password exClient wBindOk "alice" "oldpw" "short").1 =
        Except.ok (false,
          (check_password_complexity_with_reason "short").2) ∧
      Event.passwd ∉ (change_password exClient wBindOk "alice" "oldpw" "short").2) :=
  ⟨⟨((C2_change_password_order exClient wBindInvalid "alice" "oldpw" "newpw").1
        rfl).1 rfl,
    ((C2_change_password_order exClient wBindInvalid "alice" "oldpw" "newpw").1
        rfl).2⟩,
   ⟨((C2_change_password_order exClient wBindOk "alice" "oldpw" "short").2
        rfl (by rfl)).1 rfl,
    ((C2_change_password_order exClient wBindOk "alice" "oldpw" "short").2
        rfl (by rfl)).2⟩⟩

/-- Counterexample to claim C6: The claim states that no protocol-level failure
raised during any public operation — including session teardown — propagates
to the caller as an uncaught exception.  But `conn.unbind_s()` runs in a
`finally` block with no enclosing handler: in a world where the unbind raises
`SERVER_DOWN`, `authenticate` raises instead of returning a structured
result. -/
theorem C6_counterexample :
    (authenticate exClient wBadTeardown "alice" "secret").1 =
      Except.error (PyErr.ldap LDAPError.serverDown) := rfl

/-- Claim C6 as amended: Every protocol-level failure raised during the body of a
public operation (bind, search, password-modify) is caught and mapped to a
structured result; provided the final unbind does not itself raise, no LDAP
error escapes any of the four public operations.  A protocol failure raised
during session teardown (the final `unbind_s`, which runs in `finally`
outside every handler) does propagate to the caller. -/
theorem C6_no_ldap_error_escapes_body (c : Client) (w : World)
    (u p uc oc nc qi ai api qe ae ape : String)
    (hu : w.unbindResult = none) :
    (∀ e, (authenticate c w u p).1 ≠ Except.error (PyErr.ldap e)) ∧
    (∀ e, (change_password c w uc oc nc).1 ≠ Except.error (PyErr.ldap e)) ∧
    (∀ e, (get_user_info c w qi ai api).1 ≠ Except.error (PyErr.ldap e)) ∧
    (∀ e, (get_password_expiry_info c w qe ae ape).1 ≠
      Except.error (PyErr.ldap e)) := by
  refine ⟨fun e => ?_, fun e => ?_, fun e => ?_, fun e => ?_⟩
  · rw [show (authenticate c w u p).1 =
        (authBody w (get_user_dn c u) u p).1 from withUnbind_fst_none w hu _]
    exact authBody_never_raises w _ u p _
  · rw [show (change_password c w uc oc nc).1 =
        handleLdap (changeHandlers uc)
          (changeBody w (get_user_dn c uc) oc nc).1 from
      withUnbind_fst_none w hu _]
    exact handleLdap_ne_ldap_error _ _ e
  · rw [show (get_user_info c w qi ai api).1 =
        handleLdap (infoHandlers (if ai = "" then qi else ai) qi)
          (infoBody c w qi
            (get_user_dn c (if ai = "" then qi else ai)) api).1 from
      withUnbind_fst_none w hu _]
    exact handleLdap_ne_ldap_error _ _ e
  · rw [show (get_password_expiry_info c w qe ae ape).1 =
        handleLdap (expiryHandlers qe ae)
          (expiryBody c w qe (get_user_dn c ae) ape).1 from
      withUnbind_fst_none w hu _]
    exact handleLdap_ne_ldap_error _ _ e

/-- Witness for the amended C6 in the all-binds-rejected world with a clean
teardown. -/
theorem C6_witness :
    (∀ e, (authenticate exClient wBindInvalid "u" "p").1 ≠
      Except.error (PyErr.ldap e)) ∧
    (∀ e, (change_password exClient wBindInvalid "u" "o" "n").1 ≠
      Except.error (PyErr.ldap e)) ∧
    (∀ e, (get_user_info exClient wBindInvalid "q" "a" "ap").1 ≠
      Except.error (PyErr.ldap e)) ∧
    (∀ e, (get_password_expiry_info exClient wBindInvalid "q" "a" "ap").1 ≠
      Except.error (PyErr.ldap e)) :=
  C6_no_ldap_error_escapes_body exClient wBindInvalid
    "u" "p" "u" "o" "n" "q" "a" "ap" "q" "a" "ap" rfl

/-- Claim C4: For every user entry with a parseable `pwdChangedTime`
(generalized time, interpreted as UTC) and a resolvable policy with
`pwdMaxAge > 0`, the expiry lookup returns
`expiry_date = lastChangedAt + maxAgeSeconds` in UTC and
`days_left = floor((expiry_date − now_UTC) / 1 day)`, which may be negative
for an already-expired password and is still a non-error result. -/
theorem C4_expiry_computation (c : Client) (w : World)
    (q a ap dn pdn dn2 : String) (entry pentry : Entry)
    (rest prest : SearchResult) (ct : String)
    (ctRest pRest mRest : List AttrVal) (t : Int) (mv : AttrVal) (age : Int)
    (hbind : w.bindResult (get_user_dn c a) ap = none)
    (hsearch : w.searchSubtree c.base_dn ("(uid=" ++ q ++ ")") expiryAttrs =
      Except.ok ((dn, entry) :: rest))
    (hct : lookupAttr entry "pwdChangedTime" = some (AttrVal.bytes ct :: ctRest))
    (ht : strptimeYmdHMS (pyRstripZ ct) = some t)
    (hpol : lookupAttr entry "pwdPolicySubentry" =
      some (AttrVal.bytes pdn :: pRest))
    (hps : w.searchBase pdn ["pwdMaxAge"] = Except.ok ((dn2, pentry) :: prest))
    (hma : lookupAttr pentry "pwdMaxAge" = some (mv :: mRest))
    (hage : pyInt (attrToStr mv) = some age)
    (hpos : 0 < age)
    (hu : w.unbindResult = none) :
    (get_password_expiry_info c w q a ap).1 =
      Except.ok ⟨some (some (t + age)),
        some (DaysLeft.int (Int.fdiv (t + age - w.now) 86400)), some t,
        "Password expires on " ++ isoFormat (t + age) ++ " UTC."⟩ := by
  have hfst : (get_password_expiry_info c w q a ap).1 =
      handleLdap (expiryHandlers q a)
        (expiryBody c w q (get_user_dn c a) ap).1 :=
    withUnbind_fst_none w hu _
  rw [hfst]
  have hne : ¬(age = 0) := by omega
  simp [expiryBody, hbind, hsearch, hct, ht, hpol, hps, hma, hage, pyHead,
    pyDecode, handleLdap, hne]

/-- Witness for C4: the spec scenario — `pwdChangedTime = "20230101000000Z"`
(epoch 1672531200), `pwdMaxAge = 7776000`, now = 2023-04-15T00:00:00Z; the
expiry date is 2023-04-01T00:00:00Z (epoch 1680307200) and `days_left` is the
negative value -14. -/
theorem C4_witness :
    (get_password_expiry_info exClient wScenario "test" "admin" "adminpw").1 =
      Except.ok ⟨some (some 1680307200), some (DaysLeft.int (-14)),
        some 1672531200,
        "Password expires on 2023-04-01T00:00:00+00:00 UTC."⟩ := by
  have h := C4_expiry_computation exClient wScenario "test" "admin" "adminpw"
    "uid=test,ou=people,dc=example,dc=com"
    "cn=default,ou=policies,dc=example,dc=com"
    "cn=default,ou=policies,dc=example,dc=com"
    scenarioUserEntry scenarioPolicyEntry [] [] "20230101000000Z" [] [] []
    1672531200 (AttrVal.bytes "7776000") 7776000
    rfl rfl rfl (by rfl) rfl rfl rfl rfl (by omega) rfl
  exact h

/-- Claim C5: For every user entry whose resolved policy has `pwdMaxAge = 0`,
the expiry lookup returns `days_left` = infinite and `expiry_date` bound to
`None`, regardless of the value of `pwdChangedTime` (any parseable value). -/
theorem C5_never_expires (c : Client) (w : World)
    (q a ap dn pdn dn2 : String) (entry pentry : Entry)
    (rest prest : SearchResult) (ct : String)
    (ctRest pRest mRest : List AttrVal) (t : Int) (mv : AttrVal)
    (hbind : w.bindResult (get_user_dn c a) ap = none)
    (hsearch : w.searchSubtree c.base_dn ("(uid=" ++ q ++ ")") expiryAttrs =
      Except.ok ((dn, entry) :: rest))
    (hct : lookupAttr entry "pwdChangedTime" = some (AttrVal.bytes ct :: ctRest))
    (ht : strptimeYmdHMS (pyRstripZ ct) = some t)
    (hpol : lookupAttr entry "pwdPolicySubentry" =
      some (AttrVal.bytes pdn :: pRest))
    (hps : w.searchBase pdn ["pwdMaxAge"] = Except.ok ((dn2, pentry) :: prest))
    (hma : lookupAttr pentry "pwdMaxAge" = some (mv :: mRest))
    (hage : pyInt (attrToStr mv) = some 0)
    (hu : w.unbindResult = none) :
    (get_password_expiry_info c w q a ap).1 =
      Except.ok ⟨some none, some DaysLeft.inf, none,
        "Password is set to never expire."⟩ := by
  have hfst : (get_password_expiry_info c w q a ap).1 =
      handleLdap (expiryHandlers q a)
        (expiryBody c w q (get_user_dn c a) ap).1 :=
    withUnbind_fst_none w hu _
  rw [hfst]
  simp [expiryBody, hbind, hsearch, hct, ht, hpol, hps, hma, hage, pyHead,
    pyDecode, handleLdap]

/-- Witness for C5: the scenario entry against a `pwdMaxAge = 0` policy. -/
theorem C5_witness :
    (get_password_expiry_info exClient wNeverExpires "test" "admin" "adminpw").1 =
      Except.ok ⟨some none, some DaysLeft.inf, none,
        "Password is set to never expire."⟩ := by
  have h := C5_never_expires exClient wNeverExpires "test" "admin" "adminpw"
    "uid=test,ou=people,dc=example,dc=com"
    "cn=default,ou=policies,dc=example,dc=com"
    "cn=default,ou=policies,dc=example,dc=com"
    scenarioUserEntry neverExpiresPolicyEntry [] [] "20230101000000Z" [] [] []
    1672531200 (AttrVal.bytes "0")
    rfl rfl rfl (by rfl) rfl rfl rfl rfl rfl
  exact h

/-- Claim C10: For every successful profile lookup (`get_user_info` with a
non-empty search result whose attributes each carry at least one value), the
returned mapping is built from only the first entry of the search result, and
for each attribute it contains only that attribute's first value (decoded as
UTF-8 when it is `bytes`); further matching entries and additional values of
multi-valued attributes are silently discarded. -/
theorem C10_first_entry_first_values (c : Client) (w : World)
    (q a ap dn : String) (entry : Entry) (rest : SearchResult)
    (hbind : w.bindResult (get_user_dn c (if a = "" then q else a)) ap = none)
    (hsearch : w.searchSubtree c.base_dn ("(uid=" ++ q ++ ")") infoAttrs =
      Except.ok ((dn, entry) :: rest))
    (hvals : ∀ kv ∈ entry, kv.2 ≠ [])
    (hu : w.unbindResult = none) :
    (get_user_info c w q a ap).1 =
      Except.ok (InfoResult.info (firstValues entry)) := by
  have hfst : (get_user_info c w q a ap).1 =
      handleLdap (infoHandlers (if a = "" then q else a) q)
        (infoBody c w q (get_user_dn c (if a = "" then q else a)) ap).1 :=
    withUnbind_fst_none w hu _
  rw [hfst]
  simp [infoBody, hbind, hsearch, buildUserInfo_firstValues entry hvals,
    handleLdap]

/-- Witness for C10: two matching entries, one with a multi-valued attribute
and a mixed `bytes`/`str` attribute — the result keeps the first entry's
first values only. -/
theorem C10_witness :
    (get_user_info exClient wInfo "test" "xops" "adminpw").1 =
      Except.ok (InfoResult.info
        [("uid", "test"), ("cn", "Test User"), ("mail", "test@example.com")]) := by
  have h := C10_first_entry_first_values exClient wInfo "test" "xops" "adminpw"
    "uid=test,ou=people,dc=example,dc=com" infoEntryA
    [("uid=shadow,ou=people,dc=example,dc=com", infoEntryB)]
    rfl rfl (by decide) rfl
  exact h

end Utils
